import Mathlib

/-!
# Verification of the Prediction Orchestration subsystem

Shallow embedding of the prediction orchestration of the
"Sistema Distribuido de Predicción Inteligente para Hospitales Públicos"
repository (NestJS backend).  The embedded code is:

* `ml-service.client.ts` (`MLServiceClient.predict`,
  `MLServiceClient.handleMLServiceError`, the `MLPredictionInput` and
  `MLPredictionResponse` shapes);
* `predictions.service.ts` (`PredictionsService.requestPrediction`,
  `prepareFeatures`, `findById`, `getPatientHistory`, `findAll`,
  `getStatistics`);
* `predictions.controller.ts` (`PredictionsController.findAll` with its
  default/cap handling of `page` and `limit`);
* `patients.service.ts` (`PatientsService.findById`);
* the `Prediction` and `ClinicalRecord` entities and the
  `RiskLevel` enum.

Conventions of the embedding:

* TypeScript `number` becomes `ℚ` where the value is a decimal
  (scores, BMI, glucose, …) and `Int` where it is an integer count;
* nullable fields become `Option`;
* thrown exceptions become `Except` results;
* the database tables become lists inside a `Db` state, and each
  service method is a function of that state; a method that can write
  returns the post-state explicitly;
* the remote ML microservice is an oracle `remote : MLRequest →
  RemoteOutcome` passed to the client, and the client also returns the
  list of outbound requests it actually issued, so "at most one request
  per invoke" is a provable statement.
-/

/-- `RiskLevel` enum from `common/enums/prediction-type.enum.ts`. -/
inductive RiskLevel where
  | LOW
  | MEDIUM
  | HIGH
deriving DecidableEq, Repr

/-- The string value each `RiskLevel` member carries in the TypeScript enum. -/
def RiskLevel.str : RiskLevel → String
  | .LOW => "LOW"
  | .MEDIUM => "MEDIUM"
  | .HIGH => "HIGH"

/-- `ClinicalRecord` entity (`clinical-record.entity.ts`): the columns the
feature mapping and the orchestration read.  Columns marked
`nullable: true` in the entity become `Option`. -/
structure ClinicalRecord where
  id : String
  patientId : String
  age : Int
  bmi : Option ℚ
  bloodPressureSystolic : Option Int
  bloodPressureDiastolic : Option Int
  glucoseLevel : Option ℚ
  cholesterol : Option ℚ
  hba1c : Option ℚ
  previousAdmissions : Int
  lastStayDuration : Option Int
  hasDiabetes : Bool
  hasHypertension : Bool
  hasHeartDisease : Bool
  smokingStatus : String
deriving DecidableEq, Repr

/-- `Patient` entity, restricted to what the orchestration reads (its id). -/
structure Patient where
  id : String
deriving DecidableEq, Repr

/-- `MLPredictionInput` from `ml-service.client.ts`: the feature vector sent
to the ML microservice.  `number | null` fields become `Option`. -/
structure MLPredictionInput where
  age : Int
  bmi : Option ℚ
  blood_pressure_systolic : Option Int
  blood_pressure_diastolic : Option Int
  glucose_level : Option ℚ
  cholesterol : Option ℚ
  hba1c : Option ℚ
  previous_admissions : Int
  last_stay_duration : Option Int
  has_diabetes : Bool
  has_hypertension : Bool
  has_heart_disease : Bool
  smoking_status : String
deriving DecidableEq, Repr

/-- `MLPredictionResponse` from `ml-service.client.ts`.  `risk_level` is a
string on the wire (the TypeScript `as RiskLevel` cast in the service is a
compile-time assertion, not a runtime check). -/
structure MLPredictionResponse where
  success : Bool
  prediction_type : String
  risk_score : ℚ
  risk_level : String
  model_version : String
  model_algorithm : String
  feature_importance : List (String × ℚ)
  processing_time_ms : Int
deriving DecidableEq, Repr

/-- One outbound POST `/predict` request body, as built in
`MLServiceClient.predict`. -/
structure MLRequest where
  prediction_type : String
  features : MLPredictionInput
deriving DecidableEq, Repr

/-- What one network attempt against the remote service can come back as:
a parsed success payload, or one of the transport/remote failures that the
`catch` block in `MLServiceClient.predict` receives.  `rejected` carries the
HTTP status and the optional `detail` field of the error payload
(`axiosError.response`); `malformed` stands for any other thrown error
(e.g. a success payload that cannot be parsed into the expected shape),
which reaches the final fall-through branch of `handleMLServiceError`. -/
inductive RemoteOutcome where
  | ok (resp : MLPredictionResponse)
  | connRefused
  | timedOut
  | rejected (status : Int) (detail : Option String)
  | malformed
deriving DecidableEq, Repr

/-- The single error class `MLServiceClient` surfaces:
`ServiceUnavailableException`, with its message. -/
structure ServiceUnavailableException where
  message : String
deriving DecidableEq, Repr

namespace MLServiceClient

/-- `MLServiceClient.handleMLServiceError`: maps every failure outcome to a
`ServiceUnavailableException`, choosing the message by cause exactly as the
code's branch ladder does (`ECONNREFUSED`, `ETIMEDOUT`, `axiosError.response`
with `data?.detail || 'Unknown error'`, and the unknown-error fall-through). -/
def handleMLServiceError : RemoteOutcome → ServiceUnavailableException
  | .connRefused =>
      ⟨"ML Service is not available. The prediction service may be starting up or offline."⟩
  | .timedOut =>
      ⟨"ML Service request timed out. The prediction is taking too long."⟩
  | .rejected _ detail =>
      ⟨"ML Service error: " ++ detail.getD "Unknown error"⟩
  | .malformed =>
      ⟨"An unexpected error occurred with the ML Service"⟩
  | .ok _ =>
      ⟨"An unexpected error occurred with the ML Service"⟩

/-- `MLServiceClient.predict`: builds the request body, performs exactly one
network attempt (via the `remote` oracle), returns the parsed response on
success and the mapped `ServiceUnavailableException` on any failure.  The
second component is the list of outbound requests issued during the call. -/
def predict (remote : MLRequest → RemoteOutcome)
    (predictionType : String) (features : MLPredictionInput) :
    Except ServiceUnavailableException MLPredictionResponse × List MLRequest :=
  match remote ⟨predictionType, features⟩ with
  | .ok resp => (.ok resp, [⟨predictionType, features⟩])
  | outcome => (.error (handleMLServiceError outcome), [⟨predictionType, features⟩])

end MLServiceClient

/-- Modelled from the spec: the Risk Classifier (`classify`) is implemented
in the Python ml-service, which is not among the repository sources here
(only its TypeScript callers and the `RiskLevel` enum documentation are).
Spec §4.3: `classify(score: float in [0,1]) → band`; score < 0.30 → LOW;
0.30 ≤ score < 0.70 → MEDIUM; score ≥ 0.70 → HIGH; fails (does not clamp)
when the score is outside [0,1]. -/
def classify (score : ℚ) : Except String RiskLevel :=
  if score < 0 ∨ 1 < score then .error "InvalidScore"
  else if score < 3/10 then .ok .LOW
  else if score < 7/10 then .ok .MEDIUM
  else .ok .HIGH

/-- `Prediction` entity (`prediction.entity.ts`), restricted to the columns
written by the orchestration.  `riskLevel` is kept as the string actually
assigned (`mlResponse.risk_level as RiskLevel` is an unchecked cast);
`featuresUsed` is the JSONB snapshot of the feature vector. -/
structure Prediction where
  id : String
  patientId : String
  clinicalRecordId : String
  predictionType : String
  riskScore : ℚ
  riskLevel : String
  modelVersion : String
  modelAlgorithm : String
  featuresUsed : MLPredictionInput
  featureImportance : List (String × ℚ)
  processingTimeMs : Int
  requestedById : String
deriving DecidableEq, Repr

/-- The database state the embedded services read and write.  The
`predictions` list is kept in insertion order (so `createdAt DESC` order is
its reverse). -/
structure Db where
  patients : List Patient
  clinicalRecords : List ClinicalRecord
  predictions : List Prediction
deriving DecidableEq, Repr

/-- `RequestPredictionDto` (`request-prediction.dto.ts`). -/
structure RequestPredictionDto where
  patientId : String
  clinicalRecordId : String
  predictionType : String
deriving DecidableEq, Repr

/-- The two exception classes the orchestration can throw:
`NotFoundException` and `ServiceUnavailableException`, each with its
message. -/
inductive AppError where
  | notFound (message : String)
  | serviceUnavailable (message : String)
deriving DecidableEq, Repr

namespace PatientsService

/-- `PatientsService.findById`: `findOne({ where: { id } })`, throwing
`NotFoundException` when no patient matches. -/
def findById (db : Db) (id : String) : Except AppError Patient :=
  match db.patients.find? (fun p => p.id == id) with
  | none => .error (.notFound ("Patient with ID " ++ id ++ " not found"))
  | some patient => .ok patient

end PatientsService

namespace PredictionsService

/-- `PredictionsService.prepareFeatures`: one field per expected remote
input; every nullable numeric column is passed through with `?? null`
(here: the `Option` unchanged), booleans and the smoking status verbatim. -/
def prepareFeatures (record : ClinicalRecord) : MLPredictionInput :=
  { age := record.age
  , bmi := record.bmi
  , blood_pressure_systolic := record.bloodPressureSystolic
  , blood_pressure_diastolic := record.bloodPressureDiastolic
  , glucose_level := record.glucoseLevel
  , cholesterol := record.cholesterol
  , hba1c := record.hba1c
  , previous_admissions := record.previousAdmissions
  , last_stay_duration := record.lastStayDuration
  , has_diabetes := record.hasDiabetes
  , has_hypertension := record.hasHypertension
  , has_heart_disease := record.hasHeartDisease
  , smoking_status := record.smokingStatus }

/-- `PredictionsService.requestPrediction`: (1) resolve the patient,
(2) resolve the clinical record by id *and* patient id, (3) build the
feature vector, (4) call the ML client, (5) create and save the
`Prediction` row from the response.  Returns the thrown exception or the
persisted row, the post-state of the database (unchanged on every failure
path, since `save` is the last step), and the outbound requests issued. -/
def requestPrediction (remote : MLRequest → RemoteOutcome) (db : Db)
    (dto : RequestPredictionDto) (userId : String) :
    Except AppError Prediction × Db × List MLRequest :=
  match PatientsService.findById db dto.patientId with
  | .error e => (.error e, db, [])
  | .ok _ =>
    match db.clinicalRecords.find?
        (fun r => r.id == dto.clinicalRecordId && r.patientId == dto.patientId) with
    | none =>
        (.error (.notFound ("Clinical record " ++ dto.clinicalRecordId ++
          " not found for patient " ++ dto.patientId)), db, [])
    | some clinicalRecord =>
      let features := prepareFeatures clinicalRecord
      match MLServiceClient.predict remote dto.predictionType features with
      | (.error e, reqs) => (.error (.serviceUnavailable e.message), db, reqs)
      | (.ok mlResponse, reqs) =>
        let prediction : Prediction :=
          { id := "prediction-" ++ toString db.predictions.length
          , patientId := dto.patientId
          , clinicalRecordId := dto.clinicalRecordId
          , predictionType := dto.predictionType
          , riskScore := mlResponse.risk_score
          , riskLevel := mlResponse.risk_level
          , modelVersion := mlResponse.model_version
          , modelAlgorithm := mlResponse.model_algorithm
          , featuresUsed := features
          , featureImportance := mlResponse.feature_importance
          , processingTimeMs := mlResponse.processing_time_ms
          , requestedById := userId }
        (.ok prediction, { db with predictions := db.predictions ++ [prediction] }, reqs)

/-- `PredictionsService.findById`: read one prediction, throwing
`NotFoundException` when absent. -/
def findById (db : Db) (id : String) : Except AppError Prediction :=
  match db.predictions.find? (fun p => p.id == id) with
  | none => .error (.notFound ("Prediction with ID " ++ id ++ " not found"))
  | some prediction => .ok prediction

/-- `PredictionsService.getPatientHistory`: validate the patient, then list
that patient's predictions, `createdAt DESC`. -/
def getPatientHistory (db : Db) (patientId : String) :
    Except AppError (List Prediction) :=
  match PatientsService.findById db patientId with
  | .error e => .error e
  | .ok _ => .ok ((db.predictions.filter (fun p => p.patientId == patientId)).reverse)

/-- The `{ data, meta }` shape returned by `PredictionsService.findAll`. -/
structure PagedPredictions where
  data : List Prediction
  page : Int
  limit : Int
  total : Nat
  totalPages : Int
deriving DecidableEq, Repr

/-- `PredictionsService.findAll(page = 1, limit = 20)`: `findAndCount` with
`order: createdAt DESC`, `skip: (page - 1) * limit`, `take: limit`.  A
non-positive skip or take takes effect as zero rows skipped / zero rows
taken, matching `OFFSET`/`LIMIT` on non-negative values; `totalPages` is
`Math.ceil(total / limit)`. -/
def findAll (db : Db) (page : Int := 1) (limit : Int := 20) : PagedPredictions :=
  let ordered := db.predictions.reverse
  { data := (ordered.drop ((page - 1) * limit).toNat).take limit.toNat
  , page := page
  , limit := limit
  , total := ordered.length
  , totalPages := ⌈((ordered.length : ℚ) / (limit : ℚ))⌉ }

/-- One row of the `GROUP BY` aggregations in
`PredictionsService.getStatistics`. -/
structure RiskLevelCount where
  riskLevel : String
  count : Nat
deriving DecidableEq, Repr

/-- One row of the by-type aggregation (`COUNT(*)` and `AVG(p.riskScore)`
grouped by `predictionType`). -/
structure TypeCount where
  predictionType : String
  count : Nat
  avgRiskScore : ℚ
deriving DecidableEq, Repr

/-- The object returned by `PredictionsService.getStatistics`. -/
structure Statistics where
  total : Nat
  byRiskLevel : List RiskLevelCount
  byType : List TypeCount
  highRiskCount : Nat
  recentPredictions : List Prediction
deriving DecidableEq, Repr

/-- `PredictionsService.getStatistics`: all counts are computed from the
stored rows at read time.  A SQL `GROUP BY` yields one row per value
actually present (a value with no rows yields no group), modelled as one
entry per distinct value of the stored column, carrying its count. -/
def getStatistics (db : Db) : Statistics :=
  let levels := (db.predictions.map (fun p => p.riskLevel)).dedup
  let types := (db.predictions.map (fun p => p.predictionType)).dedup
  { total := db.predictions.length
  , byRiskLevel := levels.map (fun v =>
      { riskLevel := v
      , count := (db.predictions.filter (fun p => p.riskLevel == v)).length })
  , byType := types.map (fun v =>
      let rows := db.predictions.filter (fun p => p.predictionType == v)
      { predictionType := v
      , count := rows.length
      , avgRiskScore := (rows.map (fun p => p.riskScore)).sum / (rows.length : ℚ) })
  , highRiskCount := (db.predictions.filter (fun p => p.riskLevel == RiskLevel.HIGH.str)).length
  , recentPredictions := db.predictions.reverse.take 10 }

end PredictionsService

namespace PredictionsController

/-- `PredictionsController.findAll`: `page` defaults to 1, `limit` to 20
(`DefaultValuePipe`), and the service is called with
`Math.min(limit, 100)`. -/
def findAll (db : Db) (pageQuery limitQuery : Option Int) :
    PredictionsService.PagedPredictions :=
  let page := pageQuery.getD 1
  let limit := limitQuery.getD 20
  PredictionsService.findAll db page (min limit 100)

end PredictionsController

/-! ## Concrete fixtures

Sample database contents used to instantiate the theorems below; the
clinical record is the end-to-end example of the spec (§8): a 62-year-old
with BMI 31.4, pressure 150/95, glucose 180, three prior admissions,
diabetes and hypertension, a former smoker. -/

/-- The spec's end-to-end example observation. -/
def record0 : ClinicalRecord :=
  { id := "rec-1"
  , patientId := "pat-1"
  , age := 62
  , bmi := some (31.4 : ℚ)
  , bloodPressureSystolic := some 150
  , bloodPressureDiastolic := some 95
  , glucoseLevel := some (180 : ℚ)
  , cholesterol := none
  , hba1c := none
  , previousAdmissions := 3
  , lastStayDuration := none
  , hasDiabetes := true
  , hasHypertension := true
  , hasHeartDisease := false
  , smokingStatus := "FORMER" }

/-- A database holding one patient and the example observation. -/
def db0 : Db :=
  { patients := [⟨"pat-1"⟩]
  , clinicalRecords := [record0]
  , predictions := [] }

/-- The orchestration request for the example observation. -/
def dto0 : RequestPredictionDto :=
  { patientId := "pat-1", clinicalRecordId := "rec-1"
  , predictionType := "READMISSION_RISK" }

/-- The spec's example remote response: score 0.82, band hint HIGH. -/
def resp0 : MLPredictionResponse :=
  { success := true
  , prediction_type := "READMISSION_RISK"
  , risk_score := (0.82 : ℚ)
  , risk_level := "HIGH"
  , model_version := "1.0.0"
  , model_algorithm := "logistic_regression"
  , feature_importance := [("age", (0.3 : ℚ))]
  , processing_time_ms := 12 }

/-- A remote response whose band hint (`LOW`) contradicts its own score
(0.82): exercises the disagreeing-hint case. -/
def respHintLow : MLPredictionResponse :=
  { resp0 with risk_level := "LOW" }

/-! ## C2 — the risk classifier -/

/-- **C2**: `classify` is total on [0,1] with the fixed thresholds —
LOW on [0, 0.30), MEDIUM on [0.30, 0.70), HIGH on [0.70, 1] — and fails
(with an error, no clamping) on every score outside [0,1]. -/
theorem classify_threshold_spec (s : ℚ) :
    (0 ≤ s ∧ s < 3/10 → classify s = .ok RiskLevel.LOW) ∧
    (3/10 ≤ s ∧ s < 7/10 → classify s = .ok RiskLevel.MEDIUM) ∧
    (7/10 ≤ s ∧ s ≤ 1 → classify s = .ok RiskLevel.HIGH) ∧
    (s < 0 ∨ 1 < s → classify s = .error "InvalidScore") := by
  unfold classify
  refine ⟨fun ⟨h0, h3⟩ => ?_, fun ⟨h3, h7⟩ => ?_, fun ⟨h7, h1⟩ => ?_, fun h => ?_⟩
  · rw [if_neg (by push_neg; exact ⟨h0, by linarith⟩), if_pos h3]
  · rw [if_neg (by push_neg; exact ⟨by linarith, by linarith⟩),
      if_neg (by linarith), if_pos h7]
  · rw [if_neg (by push_neg; exact ⟨by linarith, h1⟩),
      if_neg (by linarith), if_neg (by linarith)]
  · rw [if_pos h]

/-- Witness for `classify_threshold_spec`, instantiated in each band and
outside the domain. -/
theorem classify_threshold_spec_witness :
    classify (1/10) = .ok RiskLevel.LOW ∧
    classify (1/2) = .ok RiskLevel.MEDIUM ∧
    classify (82/100) = .ok RiskLevel.HIGH ∧
    classify (3/2) = .error "InvalidScore" :=
  ⟨(classify_threshold_spec (1/10)).1 ⟨by norm_num, by norm_num⟩,
   (classify_threshold_spec (1/2)).2.1 ⟨by norm_num, by norm_num⟩,
   (classify_threshold_spec (82/100)).2.2.1 ⟨by norm_num, by norm_num⟩,
   (classify_threshold_spec (3/2)).2.2.2 (Or.inr (by norm_num))⟩

/-! ## C6 — the feature mapping -/

/-- **C6**: `prepareFeatures` is a pure, deterministic function of the
observation — mapping the same record twice yields identical vectors — and
each optional numeric field is passed through unchanged (so an absent
measurement becomes the explicit `none` marker, never zero and never a
dropped field), while the booleans and the smoking status always carry the
observation's values. -/
theorem prepareFeatures_deterministic_null_preserving (r : ClinicalRecord) :
    PredictionsService.prepareFeatures r = PredictionsService.prepareFeatures r ∧
    (PredictionsService.prepareFeatures r).age = r.age ∧
    (PredictionsService.prepareFeatures r).bmi = r.bmi ∧
    (PredictionsService.prepareFeatures r).blood_pressure_systolic = r.bloodPressureSystolic ∧
    (PredictionsService.prepareFeatures r).blood_pressure_diastolic = r.bloodPressureDiastolic ∧
    (PredictionsService.prepareFeatures r).glucose_level = r.glucoseLevel ∧
    (PredictionsService.prepareFeatures r).cholesterol = r.cholesterol ∧
    (PredictionsService.prepareFeatures r).hba1c = r.hba1c ∧
    (PredictionsService.prepareFeatures r).previous_admissions = r.previousAdmissions ∧
    (PredictionsService.prepareFeatures r).last_stay_duration = r.lastStayDuration ∧
    (PredictionsService.prepareFeatures r).has_diabetes = r.hasDiabetes ∧
    (PredictionsService.prepareFeatures r).has_hypertension = r.hasHypertension ∧
    (PredictionsService.prepareFeatures r).has_heart_disease = r.hasHeartDisease ∧
    (PredictionsService.prepareFeatures r).smoking_status = r.smokingStatus :=
  ⟨rfl, rfl, rfl, rfl, rfl, rfl, rfl, rfl, rfl, rfl, rfl, rfl, rfl, rfl⟩

/-! ## C5 — the inference client's failure handling -/

/-- **C5**: one call to `MLServiceClient.predict` issues exactly one
outbound request (no retry), and every failure of that request —
connection refused, timeout, remote rejection, or any other thrown error
such as an unparseable success payload — surfaces as the single
`ServiceUnavailableException` class, the rejection case forwarding the
remote diagnostic text. -/
theorem predict_single_request_single_error_class
    (remote : MLRequest → RemoteOutcome) (ty : String) (fs : MLPredictionInput) :
    (MLServiceClient.predict remote ty fs).2 = [⟨ty, fs⟩] ∧
    (remote ⟨ty, fs⟩ = .connRefused →
      (MLServiceClient.predict remote ty fs).1 = .error
        ⟨"ML Service is not available. The prediction service may be starting up or offline."⟩) ∧
    (remote ⟨ty, fs⟩ = .timedOut →
      (MLServiceClient.predict remote ty fs).1 = .error
        ⟨"ML Service request timed out. The prediction is taking too long."⟩) ∧
    (∀ status detail, remote ⟨ty, fs⟩ = .rejected status detail →
      (MLServiceClient.predict remote ty fs).1 = .error
        ⟨"ML Service error: " ++ detail.getD "Unknown error"⟩) ∧
    (remote ⟨ty, fs⟩ = .malformed →
      (MLServiceClient.predict remote ty fs).1 = .error
        ⟨"An unexpected error occurred with the ML Service"⟩) := by
  refine ⟨?_, fun h => ?_, fun h => ?_, fun status detail h => ?_, fun h => ?_⟩
  · unfold MLServiceClient.predict
    cases remote ⟨ty, fs⟩ <;> rfl
  all_goals
    unfold MLServiceClient.predict
    rw [h]
    rfl

/-- Witness for `predict_single_request_single_error_class`: a remote that
rejects with status 500 and diagnostic "Model not loaded" yields exactly one
request and the forwarded diagnostic inside the service-unavailable error. -/
theorem predict_single_request_single_error_class_witness :
    (MLServiceClient.predict (fun _ => .rejected 500 (some "Model not loaded"))
        "READMISSION_RISK" (PredictionsService.prepareFeatures record0)).2 =
      [⟨"READMISSION_RISK", PredictionsService.prepareFeatures record0⟩] ∧
    (MLServiceClient.predict (fun _ => .rejected 500 (some "Model not loaded"))
        "READMISSION_RISK" (PredictionsService.prepareFeatures record0)).1 =
      .error ⟨"ML Service error: Model not loaded"⟩ :=
  ⟨(predict_single_request_single_error_class
      (fun _ => .rejected 500 (some "Model not loaded")) "READMISSION_RISK"
      (PredictionsService.prepareFeatures record0)).1,
   (predict_single_request_single_error_class
      (fun _ => .rejected 500 (some "Model not loaded")) "READMISSION_RISK"
      (PredictionsService.prepareFeatures record0)).2.2.2.1 500
      (some "Model not loaded") rfl⟩

/-! ## C3 — client failure leaves no trace -/

/-- **C3**: when the run reaches the inference client and the client's
single request fails in any way, the orchestration aborts with the
service-unavailable error and the database is exactly what it was before
the run: no `Prediction` row is persisted. -/
theorem requestPrediction_client_failure_no_record
    (remote : MLRequest → RemoteOutcome) (db : Db) (dto : RequestPredictionDto)
    (userId : String) (patient : Patient) (record : ClinicalRecord)
    (hpat : db.patients.find? (fun p => p.id == dto.patientId) = some patient)
    (hrec : db.clinicalRecords.find?
      (fun r => r.id == dto.clinicalRecordId && r.patientId == dto.patientId) = some record)
    (hfail : ∀ resp, remote ⟨dto.predictionType, PredictionsService.prepareFeatures record⟩ ≠
      .ok resp) :
    (∃ msg, (PredictionsService.requestPrediction remote db dto userId).1 =
      .error (.serviceUnavailable msg)) ∧
    (PredictionsService.requestPrediction remote db dto userId).2.1 = db := by
  simp only [PredictionsService.requestPrediction, PatientsService.findById, hpat, hrec,
    MLServiceClient.predict]
  cases h : remote ⟨dto.predictionType, PredictionsService.prepareFeatures record⟩ with
  | ok resp => exact absurd h (hfail resp)
  | connRefused => exact ⟨⟨_, rfl⟩, trivial⟩
  | timedOut => exact ⟨⟨_, rfl⟩, trivial⟩
  | rejected status detail => exact ⟨⟨_, rfl⟩, trivial⟩
  | malformed => exact ⟨⟨_, rfl⟩, trivial⟩

/-- Witness for `requestPrediction_client_failure_no_record`: a timing-out
remote against the sample database. -/
theorem requestPrediction_client_failure_no_record_witness :
    (∃ msg, (PredictionsService.requestPrediction (fun _ => .timedOut) db0 dto0 "user-1").1 =
      .error (.serviceUnavailable msg)) ∧
    (PredictionsService.requestPrediction (fun _ => .timedOut) db0 dto0 "user-1").2.1 = db0 :=
  requestPrediction_client_failure_no_record (fun _ => .timedOut) db0 dto0 "user-1"
    ⟨"pat-1"⟩ record0 rfl rfl
    (fun _ h => RemoteOutcome.noConfusion h)

/-! ## C4 — cross-patient ownership check -/

/-- In a table with unique record ids, the lookup keyed by both the record
id and the patient id comes back empty when the record with that id belongs
to a different patient. -/
lemma find?_record_other_owner_eq_none (l : List ClinicalRecord)
    (crId pid : String) (record : ClinicalRecord)
    (hnodup : (l.map (fun r => r.id)).Nodup)
    (hmem : record ∈ l) (hid : record.id = crId) (hown : record.patientId ≠ pid) :
    l.find? (fun r => r.id == crId && r.patientId == pid) = none := by
  apply List.find?_eq_none.mpr
  intro r hr hpred
  simp only [Bool.and_eq_true, beq_iff_eq] at hpred
  obtain ⟨h1, h2⟩ := hpred
  have heq : r = record :=
    List.inj_on_of_nodup_map hnodup hr hmem (by rw [h1, hid])
  exact hown (heq ▸ h2)

/-- **C4**: requesting a prediction for patient P1 with an observation owned
by a different patient fails with `NotFound`, persists nothing, and sends
nothing over the network (the ownership check precedes the feature build and
the client call), for every remote behaviour. -/
theorem requestPrediction_cross_patient_not_found
    (remote : MLRequest → RemoteOutcome) (db : Db) (dto : RequestPredictionDto)
    (userId : String) (record : ClinicalRecord)
    (hnodup : (db.clinicalRecords.map (fun r => r.id)).Nodup)
    (hmem : record ∈ db.clinicalRecords)
    (hid : record.id = dto.clinicalRecordId)
    (hown : record.patientId ≠ dto.patientId) :
    (∃ msg, (PredictionsService.requestPrediction remote db dto userId).1 =
      .error (.notFound msg)) ∧
    (PredictionsService.requestPrediction remote db dto userId).2.1 = db ∧
    (PredictionsService.requestPrediction remote db dto userId).2.2 = [] := by
  have hfind := find?_record_other_owner_eq_none db.clinicalRecords
    dto.clinicalRecordId dto.patientId record hnodup hmem hid hown
  simp only [PredictionsService.requestPrediction, PatientsService.findById, hfind]
  cases hpat : db.patients.find? (fun p => p.id == dto.patientId) with
  | none => exact ⟨⟨_, rfl⟩, rfl, rfl⟩
  | some patient => exact ⟨⟨_, rfl⟩, rfl, rfl⟩

/-- Witness for `requestPrediction_cross_patient_not_found`: the sample
record belongs to `pat-1`, and a run asking for it under patient `pat-2`
fails with `NotFound` without contacting the remote service. -/
theorem requestPrediction_cross_patient_not_found_witness :
    (∃ msg, (PredictionsService.requestPrediction (fun _ => .ok resp0)
        { patients := [⟨"pat-1"⟩, ⟨"pat-2"⟩], clinicalRecords := [record0], predictions := [] }
        ⟨"pat-2", "rec-1", "READMISSION_RISK"⟩ "user-1").1 = .error (.notFound msg)) ∧
    (PredictionsService.requestPrediction (fun _ => .ok resp0)
        { patients := [⟨"pat-1"⟩, ⟨"pat-2"⟩], clinicalRecords := [record0], predictions := [] }
        ⟨"pat-2", "rec-1", "READMISSION_RISK"⟩ "user-1").2.1 =
      { patients := [⟨"pat-1"⟩, ⟨"pat-2"⟩], clinicalRecords := [record0], predictions := [] } ∧
    (PredictionsService.requestPrediction (fun _ => .ok resp0)
        { patients := [⟨"pat-1"⟩, ⟨"pat-2"⟩], clinicalRecords := [record0], predictions := [] }
        ⟨"pat-2", "rec-1", "READMISSION_RISK"⟩ "user-1").2.2 = [] :=
  requestPrediction_cross_patient_not_found (fun _ => .ok resp0)
    { patients := [⟨"pat-1"⟩, ⟨"pat-2"⟩], clinicalRecords := [record0], predictions := [] }
    ⟨"pat-2", "rec-1", "READMISSION_RISK"⟩ "user-1" record0
    (by decide) (List.Mem.head _) rfl (by decide)

/-! ## Success path of the orchestration -/

/-- The `Prediction` row `requestPrediction` builds in its step 4
(`predictionRepository.create`) from the request, the resolved record's
feature vector, and the remote response. -/
def persistedRow (db : Db) (dto : RequestPredictionDto) (userId : String)
    (record : ClinicalRecord) (resp : MLPredictionResponse) : Prediction :=
  { id := "prediction-" ++ toString db.predictions.length
  , patientId := dto.patientId
  , clinicalRecordId := dto.clinicalRecordId
  , predictionType := dto.predictionType
  , riskScore := resp.risk_score
  , riskLevel := resp.risk_level
  , modelVersion := resp.model_version
  , modelAlgorithm := resp.model_algorithm
  , featuresUsed := PredictionsService.prepareFeatures record
  , featureImportance := resp.feature_importance
  , processingTimeMs := resp.processing_time_ms
  , requestedById := userId }

/-- When the patient resolves, the record resolves under that patient, and
the remote call succeeds, the whole run reduces to: return the built row and
append exactly it to the store, having issued one outbound request. -/
lemma requestPrediction_success_eq
    (remote : MLRequest → RemoteOutcome) (db : Db) (dto : RequestPredictionDto)
    (userId : String) (patient : Patient) (record : ClinicalRecord)
    (resp : MLPredictionResponse)
    (hpat : db.patients.find? (fun p => p.id == dto.patientId) = some patient)
    (hrec : db.clinicalRecords.find?
      (fun r => r.id == dto.clinicalRecordId && r.patientId == dto.patientId) = some record)
    (hresp : remote ⟨dto.predictionType, PredictionsService.prepareFeatures record⟩ = .ok resp) :
    PredictionsService.requestPrediction remote db dto userId =
      (.ok (persistedRow db dto userId record resp),
       { db with predictions := db.predictions ++ [persistedRow db dto userId record resp] },
       [⟨dto.predictionType, PredictionsService.prepareFeatures record⟩]) := by
  simp only [PredictionsService.requestPrediction, PatientsService.findById, hpat, hrec,
    MLServiceClient.predict, hresp]
  rfl

/-! ## C1 — which band is stored -/

/-- **C1 counterexample**: run the orchestration on the sample database with
a remote that returns score 0.82 together with the band-hint `LOW`.  The
run succeeds and the persisted `Prediction` carries band `LOW` — the remote
hint verbatim — although the local threshold classification of 0.82 is
`HIGH`.  The claim that the stored band is the locally computed
classification (and overrides a disagreeing hint) is therefore false. -/
theorem requestPrediction_band_hint_counterexample :
    ((PredictionsService.requestPrediction (fun _ => .ok respHintLow) db0 dto0 "user-1").1.map
      (fun p => p.riskLevel)) = .ok "LOW" ∧
    ((PredictionsService.requestPrediction (fun _ => .ok respHintLow) db0 dto0
        "user-1").2.1.predictions.map (fun p => p.riskLevel)) = ["LOW"] ∧
    classify respHintLow.risk_score = .ok RiskLevel.HIGH ∧
    ("LOW" : String) ≠ RiskLevel.HIGH.str := by
  refine ⟨rfl, rfl, ?_, by decide⟩
  show classify (0.82 : ℚ) = .ok RiskLevel.HIGH
  norm_num [classify]

/-- **C1 amended**: in every successful orchestration run, the risk band
stored on the persisted `Prediction` is the band-hint string returned by
the remote service, verbatim; no local classification is computed, so when
the hint disagrees with the local thresholds the stored band follows the
hint. -/
theorem requestPrediction_stores_remote_band
    (remote : MLRequest → RemoteOutcome) (db : Db) (dto : RequestPredictionDto)
    (userId : String) (patient : Patient) (record : ClinicalRecord)
    (resp : MLPredictionResponse)
    (hpat : db.patients.find? (fun p => p.id == dto.patientId) = some patient)
    (hrec : db.clinicalRecords.find?
      (fun r => r.id == dto.clinicalRecordId && r.patientId == dto.patientId) = some record)
    (hresp : remote ⟨dto.predictionType, PredictionsService.prepareFeatures record⟩ = .ok resp) :
    ((PredictionsService.requestPrediction remote db dto userId).1.map
      (fun p => p.riskLevel)) = .ok resp.risk_level ∧
    ((PredictionsService.requestPrediction remote db dto userId).2.1.predictions.map
      (fun p => p.riskLevel)) = db.predictions.map (fun p => p.riskLevel) ++
        [resp.risk_level] := by
  rw [requestPrediction_success_eq remote db dto userId patient record resp hpat hrec hresp]
  exact ⟨rfl, by simp [persistedRow]⟩

/-- Witness for `requestPrediction_stores_remote_band`: the disagreeing-hint
response against the sample database stores `LOW`. -/
theorem requestPrediction_stores_remote_band_witness :
    ((PredictionsService.requestPrediction (fun _ => .ok respHintLow) db0 dto0 "user-2").1.map
      (fun p => p.riskLevel)) = .ok respHintLow.risk_level ∧
    ((PredictionsService.requestPrediction (fun _ => .ok respHintLow) db0 dto0
        "user-2").2.1.predictions.map (fun p => p.riskLevel)) =
      db0.predictions.map (fun p => p.riskLevel) ++ [respHintLow.risk_level] :=
  requestPrediction_stores_remote_band (fun _ => .ok respHintLow) db0 dto0 "user-2"
    ⟨"pat-1"⟩ record0 respHintLow rfl rfl rfl

/-! ## C7 — the audit snapshot -/

/-- **C7**: every successfully persisted `Prediction` embeds verbatim the
feature vector that was sent to the remote service (the one outbound request
carries exactly `prepareFeatures record`, and `featuresUsed` equals it),
stores the remote score unchanged, and references the observation the
vector was mapped from — so re-running the feature mapping on the
referenced observation reproduces the embedded vector. -/
theorem requestPrediction_embeds_sent_features
    (remote : MLRequest → RemoteOutcome) (db : Db) (dto : RequestPredictionDto)
    (userId : String) (patient : Patient) (record : ClinicalRecord)
    (resp : MLPredictionResponse)
    (hpat : db.patients.find? (fun p => p.id == dto.patientId) = some patient)
    (hrec : db.clinicalRecords.find?
      (fun r => r.id == dto.clinicalRecordId && r.patientId == dto.patientId) = some record)
    (hresp : remote ⟨dto.predictionType, PredictionsService.prepareFeatures record⟩ = .ok resp) :
    ∃ p, (PredictionsService.requestPrediction remote db dto userId).1 = .ok p ∧
      (PredictionsService.requestPrediction remote db dto userId).2.1.predictions =
        db.predictions ++ [p] ∧
      (PredictionsService.requestPrediction remote db dto userId).2.2 =
        [⟨dto.predictionType, p.featuresUsed⟩] ∧
      p.featuresUsed = PredictionsService.prepareFeatures record ∧
      p.riskScore = resp.risk_score ∧
      p.clinicalRecordId = record.id := by
  have hid : record.id = dto.clinicalRecordId := by
    have h := List.find?_some hrec
    simp only [Bool.and_eq_true, beq_iff_eq] at h
    exact h.1
  rw [requestPrediction_success_eq remote db dto userId patient record resp hpat hrec hresp]
  exact ⟨persistedRow db dto userId record resp, rfl, rfl, rfl, rfl, rfl, hid.symm⟩

/-- Witness for `requestPrediction_embeds_sent_features`: the spec's
end-to-end example — the 62-year-old observation, remote score 0.82 —
persists `riskScore = 0.82` with `featuresUsed` equal to the mapped
input. -/
theorem requestPrediction_embeds_sent_features_witness :
    ∃ p, (PredictionsService.requestPrediction (fun _ => .ok resp0) db0 dto0 "user-1").1 =
      .ok p ∧
      (PredictionsService.requestPrediction (fun _ => .ok resp0) db0 dto0
        "user-1").2.1.predictions = db0.predictions ++ [p] ∧
      (PredictionsService.requestPrediction (fun _ => .ok resp0) db0 dto0 "user-1").2.2 =
        [⟨dto0.predictionType, p.featuresUsed⟩] ∧
      p.featuresUsed = PredictionsService.prepareFeatures record0 ∧
      p.riskScore = resp0.risk_score ∧
      p.clinicalRecordId = record0.id :=
  requestPrediction_embeds_sent_features (fun _ => .ok resp0) db0 dto0 "user-1"
    ⟨"pat-1"⟩ record0 resp0 rfl rfl rfl

/-! ## C9 — aggregate statistics -/

/-- **C9**: with exactly three stored predictions carrying bands
LOW, HIGH, HIGH, the read-time aggregation reports `total = 3`, a per-band
grouping of exactly `LOW ↦ 1` and `HIGH ↦ 2` with no MEDIUM row (bands with
zero predictions are absent from the grouping), and `highRiskCount = 2`. -/
theorem getStatistics_low_high_high (db : Db)
    (hbands : db.predictions.map (fun p => p.riskLevel) = ["LOW", "HIGH", "HIGH"]) :
    (PredictionsService.getStatistics db).total = 3 ∧
    (PredictionsService.getStatistics db).byRiskLevel = [⟨"LOW", 1⟩, ⟨"HIGH", 2⟩] ∧
    (∀ row ∈ (PredictionsService.getStatistics db).byRiskLevel,
      row.riskLevel ≠ "MEDIUM") ∧
    (PredictionsService.getStatistics db).highRiskCount = 2 := by
  have hcnt : ∀ v : String,
      (db.predictions.filter (fun p => p.riskLevel == v)).length
        = List.countP (fun s => s == v) ["LOW", "HIGH", "HIGH"] := by
    intro v
    rw [← hbands, List.countP_map]
    exact (List.countP_eq_length_filter _ _).symm
  have hded : (db.predictions.map (fun p => p.riskLevel)).dedup = ["LOW", "HIGH"] := by
    rw [hbands]
    decide
  have hby : (PredictionsService.getStatistics db).byRiskLevel = [⟨"LOW", 1⟩, ⟨"HIGH", 2⟩] := by
    show ((db.predictions.map (fun p => p.riskLevel)).dedup).map _ = _
    rw [hded]
    simp only [List.map_cons, List.map_nil, hcnt]
    rfl
  refine ⟨?_, hby, ?_, ?_⟩
  · show db.predictions.length = 3
    have := congrArg List.length hbands
    simpa using this
  · intro row hrow
    rw [hby] at hrow
    simp only [List.mem_cons, List.not_mem_nil, or_false] at hrow
    rcases hrow with h | h <;> rw [h] <;> decide
  · show (db.predictions.filter (fun p => p.riskLevel == RiskLevel.HIGH.str)).length = 2
    rw [show RiskLevel.HIGH.str = "HIGH" from rfl, hcnt "HIGH"]
    decide

/-- Witness for `getStatistics_low_high_high`: a concrete store of three
predictions with bands LOW, HIGH, HIGH. -/
theorem getStatistics_low_high_high_witness :
    (PredictionsService.getStatistics
      { patients := [], clinicalRecords := []
      , predictions :=
          [ persistedRow db0 dto0 "user-1" record0 { resp0 with risk_level := "LOW" }
          , persistedRow db0 dto0 "user-1" record0 resp0
          , persistedRow db0 dto0 "user-1" record0 resp0 ] }).total = 3 ∧
    (PredictionsService.getStatistics
      { patients := [], clinicalRecords := []
      , predictions :=
          [ persistedRow db0 dto0 "user-1" record0 { resp0 with risk_level := "LOW" }
          , persistedRow db0 dto0 "user-1" record0 resp0
          , persistedRow db0 dto0 "user-1" record0 resp0 ] }).byRiskLevel =
      [⟨"LOW", 1⟩, ⟨"HIGH", 2⟩] ∧
    (∀ row ∈ (PredictionsService.getStatistics
      { patients := [], clinicalRecords := []
      , predictions :=
          [ persistedRow db0 dto0 "user-1" record0 { resp0 with risk_level := "LOW" }
          , persistedRow db0 dto0 "user-1" record0 resp0
          , persistedRow db0 dto0 "user-1" record0 resp0 ] }).byRiskLevel,
      row.riskLevel ≠ "MEDIUM") ∧
    (PredictionsService.getStatistics
      { patients := [], clinicalRecords := []
      , predictions :=
          [ persistedRow db0 dto0 "user-1" record0 { resp0 with risk_level := "LOW" }
          , persistedRow db0 dto0 "user-1" record0 resp0
          , persistedRow db0 dto0 "user-1" record0 resp0 ] }).highRiskCount = 2 :=
  getStatistics_low_high_high
    { patients := [], clinicalRecords := []
    , predictions :=
        [ persistedRow db0 dto0 "user-1" record0 { resp0 with risk_level := "LOW" }
        , persistedRow db0 dto0 "user-1" record0 resp0
        , persistedRow db0 dto0 "user-1" record0 resp0 ] } rfl

/-! ## C10 — pagination cap -/

/-- **C10**: for every call to the paginated list endpoint, the page size
actually applied is `min(limit, 100)` with `limit` defaulting to 20 and
`page` defaulting to 1, so no response page ever holds more than 100
predictions, whatever limit is requested. -/
theorem controller_findAll_page_cap (db : Db) (pageQuery limitQuery : Option Int) :
    (PredictionsController.findAll db pageQuery limitQuery).page = pageQuery.getD 1 ∧
    (PredictionsController.findAll db pageQuery limitQuery).limit =
      min (limitQuery.getD 20) 100 ∧
    (PredictionsController.findAll db pageQuery limitQuery).data.length ≤ 100 := by
  refine ⟨rfl, rfl, ?_⟩
  show ((db.predictions.reverse.drop
      (((pageQuery.getD 1 - 1) * min (limitQuery.getD 20) 100).toNat)).take
      (min (limitQuery.getD 20) 100).toNat).length ≤ 100
  have h1 : (min (limitQuery.getD 20) 100).toNat ≤ 100 :=
    Int.toNat_le.mpr (by exact_mod_cast min_le_right (limitQuery.getD 20) (100 : Int))
  exact le_trans (List.length_take_le _ _) h1

/-! ## C8 — the store is append-only at the public interface -/

/-- The operations `PredictionsController` exposes to callers, one
constructor per route (`POST /predictions`, `GET /predictions`,
`GET /predictions/statistics`, `GET /predictions/ml-health`,
`GET /predictions/model-info`, `GET /predictions/patient/:patientId`,
`GET /predictions/:id`).  `PredictionsService` is the only code holding the
prediction repository, so this is the whole caller-visible surface of the
prediction store. -/
inductive ApiOp where
  | requestPrediction (remote : MLRequest → RemoteOutcome)
      (dto : RequestPredictionDto) (userId : String)
  | findAll (pageQuery limitQuery : Option Int)
  | getStatistics
  | mlHealth
  | modelInfo
  | getPatientHistory (patientId : String)
  | findById (id : String)

/-- Effect of one exposed operation on the database.  The six read routes
call `find`/`count` queries only (`findAll`, `getStatistics`,
`getPatientHistory`, `findById` above) or never touch the database at all
(`mlHealth`, `modelInfo` talk to the remote service), so they leave the
state unchanged; the only write is the `save` inside `requestPrediction`. -/
def ApiOp.apply (op : ApiOp) (db : Db) : Db :=
  match op with
  | .requestPrediction remote dto userId =>
      (PredictionsService.requestPrediction remote db dto userId).2.1
  | _ => db

/-- Whatever happens during one orchestration attempt, the prediction table
afterwards is the old table with zero or one rows appended. -/
lemma requestPrediction_predictions_extend
    (remote : MLRequest → RemoteOutcome) (db : Db) (dto : RequestPredictionDto)
    (userId : String) :
    ∃ tail, (PredictionsService.requestPrediction remote db dto userId).2.1.predictions
      = db.predictions ++ tail := by
  simp only [PredictionsService.requestPrediction, PatientsService.findById]
  cases hpat : db.patients.find? (fun p => p.id == dto.patientId) with
  | none => exact ⟨[], (List.append_nil _).symm⟩
  | some patient =>
    cases hrec : db.clinicalRecords.find?
        (fun r => r.id == dto.clinicalRecordId && r.patientId == dto.patientId) with
    | none => exact ⟨[], (List.append_nil _).symm⟩
    | some record =>
      simp only [MLServiceClient.predict]
      cases hout : remote ⟨dto.predictionType, PredictionsService.prepareFeatures record⟩ with
      | ok resp => exact ⟨_, rfl⟩
      | connRefused => exact ⟨[], (List.append_nil _).symm⟩
      | timedOut => exact ⟨[], (List.append_nil _).symm⟩
      | rejected status detail => exact ⟨[], (List.append_nil _).symm⟩
      | malformed => exact ⟨[], (List.append_nil _).symm⟩

/-- **C8**: the prediction store is append-only at the public interface —
after any sequence of exposed operations, the rows that were stored at the
start are still there, unchanged and in place (the old table is a prefix of
the new one); no exposed operation updates or deletes a `Prediction`. -/
theorem predictions_append_only (ops : List ApiOp) (db : Db) :
    ((ops.foldl (fun s op => ApiOp.apply op s) db).predictions.take
      db.predictions.length) = db.predictions := by
  induction ops generalizing db with
  | nil => exact List.take_length _
  | cons op rest ih =>
    have hext : ∃ tail, (ApiOp.apply op db).predictions = db.predictions ++ tail := by
      cases op with
      | requestPrediction remote dto userId =>
          exact requestPrediction_predictions_extend remote db dto userId
      | findAll pageQuery limitQuery => exact ⟨[], (List.append_nil _).symm⟩
      | getStatistics => exact ⟨[], (List.append_nil _).symm⟩
      | mlHealth => exact ⟨[], (List.append_nil _).symm⟩
      | modelInfo => exact ⟨[], (List.append_nil _).symm⟩
      | getPatientHistory patientId => exact ⟨[], (List.append_nil _).symm⟩
      | findById id => exact ⟨[], (List.append_nil _).symm⟩
    obtain ⟨tail, htail⟩ := hext
    have hle : db.predictions.length ≤ (ApiOp.apply op db).predictions.length := by
      rw [htail, List.length_append]
      exact Nat.le_add_right _ _
    rw [List.foldl_cons]
    have hstep :
        (List.foldl (fun s op => ApiOp.apply op s) (ApiOp.apply op db) rest).predictions.take
          db.predictions.length
        = ((List.foldl (fun s op => ApiOp.apply op s) (ApiOp.apply op db) rest).predictions.take
            (ApiOp.apply op db).predictions.length).take db.predictions.length := by
      rw [List.take_take, min_eq_left hle]
    rw [hstep, ih (ApiOp.apply op db), htail]
    exact List.take_left _ _
